import Mathlib

/-!
# The jffs2 request adapter of the Phoenix-RTOS file server

A shallow embedding of `src/jffs2/jffs2.c`: the functions `jffs2_srv_lookup`,
`jffs2_srv_unlink`, `jffs2_srv_create`, `jffs2_srv_readdir`, `jffs2_srv_read`,
`jffs2_srv_prepare_write` and `jffs2_srv_write`, written as state-passing
functions over a `World`.

Conventions of the embedding.

* The log-structured engine (everything the adapter reaches through
  `inode->i_op->...` and the `jffs2_*` node primitives) is not part of the
  file; it is a parameter, the structure `Engine`, whose fields are arbitrary
  functions of an arbitrary engine state.
* The inode cache is a table from inode numbers to inodes; `jffs2_iget`
  resolves an id in the table, and what the adapter stores through an inode
  pointer is written back to the table under the id the pointer came from.
* Sizes, offsets and lengths are natural numbers, return values are integers
  (non-negative byte counts and negated errno values).  Where the source
  narrows a value it is reduced to the width it is narrowed to: the 32-bit and
  16-bit on-medium fields (`cpu_to_je32`, `cpu_to_je16`), the `uint32_t`
  offset and length parameters of the range read and the range write, and the
  byte count that `jffs2_srv_read` returns through its `int ret` (`to_int`).
* Strings are lists of characters without the terminating NUL; `name[len]` is
  NUL exactly when `len` is the length of the list.  Buffers, `malloc`, `free`
  and the per-inode mutex are not represented: the dispatcher is
  single-threaded.
* A result `none` stands for undefined behaviour of the C code (a use of an
  error pointer, as the load of `inode->i_sb` that `jffs2_srv_read` and
  `jffs2_srv_write` make ahead of their `IS_ERR` test, or of an unset
  `d_inode`).
-/

namespace Jffs2

/-! ## Constants of the system headers -/

/-- Values of `errno.h` of Phoenix-RTOS (the header is not in the source tree). -/
def EOK : Int := 0
/-- No such file or directory. -/
def ENOENT : Int := 2
/-- Out of memory. -/
def ENOMEM : Int := 12
/-- File exists. -/
def EEXIST : Int := 17
/-- Not a directory. -/
def ENOTDIR : Int := 20
/-- Is a directory. -/
def EISDIR : Int := 21
/-- Invalid argument. -/
def EINVAL : Int := 22

/-- Object types of the message protocol (`otDir = 0, otFile, otDev, ...`); only
their being distinct matters here. -/
def otDir : Int := 0
/-- Regular file object type. -/
def otFile : Int := 1

/-- File-type mask of `sys/stat.h` (the usual POSIX encoding, which is also the
one jffs2 stores on the medium). -/
def S_IFMT : Nat := 0xf000
/-- Socket. -/
def S_IFSOCK : Nat := 0xc000
/-- Symbolic link. -/
def S_IFLNK : Nat := 0xa000
/-- Regular file. -/
def S_IFREG : Nat := 0x8000
/-- Block device. -/
def S_IFBLK : Nat := 0x6000
/-- Directory: bit 14, the bit `jffs2_srv_readdir` tests. -/
def S_IFDIR : Nat := 0x4000
/-- Character device. -/
def S_IFCHR : Nat := 0x2000
/-- Fifo. -/
def S_IFIFO : Nat := 0x1000
/-- Owner permissions. -/
def S_IRWXU : Nat := 0o700
/-- Group permissions. -/
def S_IRWXG : Nat := 0o070
/-- Other permissions. -/
def S_IRWXO : Nat := 0o007

/-- The macro `S_ISDIR(m)`: `(m & S_IFMT) == S_IFDIR`. -/
def S_ISDIR (m : Nat) : Bool := (m &&& S_IFMT) == S_IFDIR

/-- The conversion of a value to the C type `int`: 32 bits, two's complement. -/
def to_int (x : Int) : Int := (x + 2 ^ 31) % 2 ^ 32 - 2 ^ 31

/-- The conversion of a value to the C type `uint32_t`, which the offset and
length parameters of `jffs2_read_inode_range` and `jffs2_write_inode_range`
have in `nodelist.h` (the header is not in the source tree). -/
def to_uint32 (x : Nat) : Nat := x % 2 ^ 32

/-- The conversion `cpu_to_je32`: the value as a 32-bit field. -/
def cpu_to_je32 (x : Nat) : Nat := x % 2 ^ 32
/-- The conversion `cpu_to_je16`: the value as a 16-bit field. -/
def cpu_to_je16 (x : Nat) : Nat := x % 2 ^ 16
/-- The conversion `cpu_to_jemode`: the mode as a 32-bit field. -/
def cpu_to_jemode (x : Nat) : Nat := x % 2 ^ 32

/-! ## Data model -/

/-- An object identifier `oid_t`. -/
structure oid_t where
  port : Nat
  id : Nat
deriving DecidableEq

/-- A node attached to an inode (`struct jffs2_full_dnode`): the reference to
its raw node on the medium and the range it covers. -/
structure jffs2_full_dnode where
  raw : Nat
  ofs : Nat
  size : Nat
deriving DecidableEq

/-- The inode cache entry (`struct jffs2_inode_cache`). -/
structure jffs2_inode_cache where
  ino : Nat
  pino_nlink : Nat
deriving DecidableEq

/-- The jffs2 part of an inode (`struct jffs2_inode_info`), what
`JFFS2_INODE_INFO(inode)` yields. -/
structure jffs2_inode_info where
  highest_version : Nat
  metadata : Option jffs2_full_dnode
  inocache : jffs2_inode_cache
deriving DecidableEq

/-- The fields of `struct inode` the adapter reads or writes. -/
structure Inode where
  i_ino : Nat
  i_mode : Nat
  i_uid : Nat
  i_gid : Nat
  i_size : Nat
  i_blocks : Nat
  i_ctime : Nat
  i_mtime : Nat
  f : jffs2_inode_info
deriving DecidableEq

/-- The fields of `struct jffs2_raw_inode` the adapter fills in (magic, node
type, total length and the checksums, which depend on the byte layout, are left
out). -/
structure jffs2_raw_inode where
  ino : Nat
  version : Nat
  mode : Nat
  uid : Nat
  gid : Nat
  isize : Nat
  atime : Nat
  ctime : Nat
  mtime : Nat
  offset : Nat
  dsize : Nat
  csize : Nat
  compr : Nat
deriving DecidableEq

/-- Compression tag `JFFS2_COMPR_ZERO` of `jffs2.h`. -/
def JFFS2_COMPR_ZERO : Nat := 1

/-- The zeroed raw inode (`memset(&ri, 0, sizeof(ri))`, and what
`jffs2_alloc_raw_inode` is taken to hand out). -/
def jffs2_raw_inode.zero : jffs2_raw_inode :=
  ⟨0, 0, 0, 0, 0, 0, 0, 0, 0, 0, 0, 0, 0⟩

/-- The directory cursor `struct dir_context` without its buffer. -/
structure dir_context where
  pos : Nat
  emit : Int
deriving DecidableEq

/-- Invocations of engine primitives, in the order the adapter makes them. -/
inductive Call where
  | lookup (dir : Nat) (name : List Char)
  | unlink (dir : Nat) (name : List Char) (target : Nat)
  | create (dir : Nat) (name : List Char) (mode : Nat)
  | mkdir (dir : Nat) (name : List Char) (mode : Nat)
  | readdir (ino : Nat) (pos : Nat)
  | reserve_space
  | write_dnode (ri : jffs2_raw_inode)
  | add_full_dnode_to_inode (fn : jffs2_full_dnode)
  | mark_node_obsolete (raw : Nat)
  | free_full_dnode (fn : jffs2_full_dnode)
  | complete_reservation
  | read_inode_range (ino : Nat) (offs : Nat) (len : Nat)
  | write_inode_range (ri : jffs2_raw_inode) (offs : Nat) (len : Nat)
deriving DecidableEq

/-- What the engine owns: the inode cache and its private state. -/
structure Fs (σ : Type) where
  inodes : Nat → Option Inode
  eng : σ

/-- The state the adapter runs in: the engine side, the port of the server
(`jffs2_common.port`), the number of inode handles acquired and released so
far, and the engine primitives invoked so far. -/
structure World (σ : Type) extends Fs σ where
  port : Nat
  acquired : Nat
  released : Nat
  calls : List Call

/-- The engine as the adapter sees it.  Directory operations work on the inode
cache and the private state; node primitives, which are handed the superblock
and the jffs2 part of the inode only, work on the private state. -/
structure Engine (σ : Type) where
  /-- The call `inode->i_op->lookup`: the inode of the entry found, if any. -/
  lookup : Fs σ → Inode → List Char → Option Inode × Fs σ
  /-- The call `idir->i_op->unlink(idir, dentry)`. -/
  unlink : Fs σ → Inode → List Char → Inode → Int × Fs σ
  /-- The call `idir->i_op->create`: its result and the inode the dentry was
  instantiated with, if any. -/
  create : Fs σ → Inode → List Char → Nat → (Int × Option Inode) × Fs σ
  /-- The call `idir->i_op->mkdir`, likewise. -/
  mkdir : Fs σ → Inode → List Char → Nat → (Int × Option Inode) × Fs σ
  /-- The directory scan `jffs2_readdir(&file, &ctx)`: the cursor afterwards. -/
  readdir : Fs σ → Nat → Inode → dir_context → dir_context × Fs σ
  /-- Whether `jffs2_alloc_raw_inode` returns a node. -/
  alloc_raw_inode : σ → Bool
  /-- The clock `get_seconds()`. -/
  get_seconds : σ → Nat
  /-- The space reservation `jffs2_reserve_space`. -/
  reserve_space : σ → Int × σ
  /-- The node commit `jffs2_write_dnode`: an error pointer or the node. -/
  write_dnode : σ → jffs2_inode_info → jffs2_raw_inode → Except Int jffs2_full_dnode × σ
  /-- The linking `jffs2_add_full_dnode_to_inode`. -/
  add_full_dnode_to_inode : σ → jffs2_inode_info → jffs2_full_dnode → Int × σ
  /-- The marking `jffs2_mark_node_obsolete`. -/
  mark_node_obsolete : σ → Nat → σ
  /-- The release `jffs2_free_full_dnode`. -/
  free_full_dnode : σ → jffs2_full_dnode → σ
  /-- The release `jffs2_complete_reservation`. -/
  complete_reservation : σ → σ
  /-- The range read `jffs2_read_inode_range`. -/
  read_inode_range : σ → jffs2_inode_info → Nat → Nat → Int × σ
  /-- The range write `jffs2_write_inode_range`: its result and `writelen`. -/
  write_inode_range : σ → jffs2_inode_info → jffs2_raw_inode → List Nat → Nat → Nat →
    (Int × Nat) × σ

variable {σ : Type}

/-- Record an engine invocation. -/
def World.log (w : World σ) (c : Call) : World σ :=
  { w with calls := w.calls ++ [c] }

/-- Replace the engine's private state. -/
def World.setEng (w : World σ) (e : σ) : World σ :=
  { w with eng := e }

/-- Replace the engine side after a directory operation. -/
def World.setFs (w : World σ) (fs : Fs σ) : World σ :=
  { w with toFs := fs }

/-- A store through an inode pointer obtained for `id`. -/
def World.store (w : World σ) (id : Nat) (inode : Inode) : World σ :=
  { w with inodes := fun k => if k = id then some inode else w.inodes k }

/-- A handle handed over by the engine's directory-entry lookup counts as
acquired. -/
def World.adopt (w : World σ) : World σ :=
  { w with acquired := w.acquired + 1 }

/-! ## Inode reference manager -/

/-- The call `jffs2_iget(jffs2_common.sb, id)`: `none` is an error pointer. -/
def jffs2_iget (w : World σ) (id : Nat) : Option Inode × World σ :=
  match w.inodes id with
  | some inode => (some inode, { w with acquired := w.acquired + 1 })
  | none => (none, w)

/-- The call `iput(inode)`. -/
def iput (w : World σ) : World σ :=
  { w with released := w.released + 1 }

/-! ## Read -/

/-- The function `jffs2_srv_read` (source lines 413-453).  Ahead of its
`IS_ERR` test the function loads `inode->i_sb` (line 426): with an error pointer
that load is undefined, which is `none`, so that the exit `-EINVAL` behind the
test is not reached.  The offset and the length go to the range read as
`uint32_t`, and the byte count goes through `int ret`. -/
def jffs2_srv_read (E : Engine σ) (w : World σ) (id : Nat) (offs len : Nat) :
    Option (Int × World σ) :=
  if id = 0 then some (-EINVAL, w)
  else
    match jffs2_iget w id with
    | (none, _) => none
    | (some inode, w) =>
      if S_ISDIR inode.i_mode then some (-EISDIR, iput w)
      else if inode.i_size < offs then some (0, w)
      else
        let r := E.read_inode_range w.eng inode.f (to_uint32 offs) (to_uint32 len)
        let w := (w.setEng r.2).log
          (Call.read_inode_range inode.i_ino (to_uint32 offs) (to_uint32 len))
        let ret : Int :=
          if r.1 = 0 then
            to_int (if len > inode.i_size - offs then ((inode.i_size - offs : Nat) : Int)
                    else (len : Int))
          else r.1
        some (ret, iput w)

/-! ## Path resolver -/

/-- The inner loop `while (name[len] == '/') len++`: the index behind the
slashes that start at `len`. -/
def skip_slashes (name : List Char) (len : Nat) : Nat :=
  len + ((name.drop len).takeWhile (fun c => c == '/')).length

/-- The component `strdup(name + len)` cut at its first slash. -/
def component (name : List Char) (len : Nat) : List Char :=
  (name.drop len).takeWhile (fun c => c != '/')

/-- The variables of the loop of `jffs2_srv_lookup`: the current directory
handle `inode`, the cursor `len` and the result `res->id`. -/
structure LookupState (σ : Type) where
  w : World σ
  inode : Inode
  len : Nat
  res_id : Nat

/-- How one pass through the loop body ends: at a `continue` or the end of the
body, at the `break`, or in a use of an error pointer. -/
inductive Step (σ : Type) where
  | next (st : LookupState σ)
  | stop (st : LookupState σ)
  | fault

/-- The body of the loop of `jffs2_srv_lookup` (source lines 62-103).  When the
`jffs2_iget` of the parent fails, `inode` becomes an error pointer that the next
pass or the closing `iput` uses: that is `fault`. -/
def lookup_body (E : Engine σ) (name : List Char) (st : LookupState σ) : Step σ :=
  let len := skip_slashes name st.len
  let d_name := component name len
  if d_name = ['.'] then
    Step.next { st with res_id := st.inode.i_ino, len := len + 1 }
  else if d_name = ['.', '.'] then
    let res_id := st.inode.f.inocache.pino_nlink
    match jffs2_iget st.w res_id with
    | (some inode, w) => Step.next { w := w, inode := inode, len := len + 2, res_id := res_id }
    | (none, _) => Step.fault
  else
    let r := E.lookup st.w.toFs st.inode d_name
    let w := (st.w.setFs r.2).log (Call.lookup st.inode.i_ino d_name)
    match r.1 with
    | none => Step.stop { st with w := w, len := len }
    | some d_inode =>
      Step.next { w := iput w.adopt, inode := d_inode, len := len + d_name.length,
                  res_id := d_inode.i_ino }

/-- How the loop of `jffs2_srv_lookup` ends: with its variables as the loop
leaves them, in a use of an error pointer, or not within the given number of
tests of its condition. -/
inductive Walk (σ : Type) where
  | done (st : LookupState σ)
  | fault
  | out_of_fuel

/-- The loop `while (name[len] != 0)` of `jffs2_srv_lookup`, with at most `fuel`
tests of its condition. -/
def lookup_loop (E : Engine σ) (name : List Char) : Nat → LookupState σ → Walk σ
  | 0, _ => Walk.out_of_fuel
  | fuel + 1, st =>
    if st.len < name.length then
      match lookup_body E name st with
      | Step.next st1 => lookup_loop E name fuel st1
      | Step.stop st1 => Walk.done st1
      | Step.fault => Walk.fault
    else Walk.done st

/-- The function `jffs2_srv_lookup` (source lines 36-113): the return value,
`*res` and the world afterwards.  The loop is given `strlen(name) + 1` tests of
its condition, which it never exceeds (`lookup_loop_fuel`), so that `none` is a
use of an error pointer.  The store `dir->id = 1` is local: no caller in the
file reads `dir->id` afterwards. -/
def jffs2_srv_lookup (E : Engine σ) (w : World σ) (dir_id : Nat) (name : List Char)
    (res : oid_t) : Option (Int × oid_t × World σ) :=
  let dir_id := if dir_id = 0 then 1 else dir_id
  let res := { res with id := 0 }
  match jffs2_iget w dir_id with
  | (none, w) => some (-EINVAL, res, w)
  | (some inode, w) =>
    if !S_ISDIR inode.i_mode then some (-ENOTDIR, res, iput w)
    else
      let res := { res with port := w.port }
      match lookup_loop E name (name.length + 1) ⟨w, inode, 0, 0⟩ with
      | Walk.done st =>
        let res := { res with id := st.res_id }
        let w := iput st.w
        if res.id = 0 then some (-ENOENT, res, w) else some ((st.len : Int), res, w)
      | Walk.fault => none
      | Walk.out_of_fuel => none

/-! ## Directory-entry mutator -/

/-- The function `jffs2_srv_unlink` (source lines 272-318); `name` is a string,
so `name == NULL || !strlen(name)` is `name = []`. -/
def jffs2_srv_unlink (E : Engine σ) (w : World σ) (dir_id : Nat) (name : List Char) :
    Option (Int × World σ) :=
  if dir_id = 0 then some (-EINVAL, w)
  else if name = [] then some (-EINVAL, w)
  else
    match jffs2_iget w dir_id with
    | (none, w) => some (-ENOENT, w)
    | (some idir, w) =>
      match jffs2_srv_lookup E w dir_id name ⟨0, 0⟩ with
      | none => none
      | some (r, oid, w) =>
        if r ≠ EOK then some (-ENOENT, iput w)
        else
          match jffs2_iget w oid.id with
          | (none, w) => some (-ENOENT, iput w)
          | (some inode, w) =>
            let u := E.unlink w.toFs idir name inode
            let w := (w.setFs u.2).log (Call.unlink idir.i_ino name inode.i_ino)
            some (u.1, iput (iput w))

/-- The tail of `jffs2_srv_create` behind its `switch` (source lines 361-366):
`d_inode` is what the engine instantiated the dentry with. -/
def create_finish (w : World σ) (oid : oid_t) (ret : Int) (d_inode : Option Inode) :
    Option (Int × oid_t × World σ) :=
  let w := iput w
  if ret = 0 then
    match d_inode with
    | some inode => some (ret, { oid with id := inode.i_ino }, w)
    | none => none
  else some (ret, oid, w)

/-- The function `jffs2_srv_create` (source lines 321-367).  The case `otDir`
has no `break`: control runs on into `default`, which overwrites `ret`. -/
def jffs2_srv_create (E : Engine σ) (w : World σ) (dir_id : Nat) (name : List Char)
    (oid : oid_t) (type : Int) (mode : Nat) (_port : Nat) : Option (Int × oid_t × World σ) :=
  match jffs2_iget w dir_id with
  | (none, w) => some (-ENOENT, oid, w)
  | (some idir, w) =>
    if !S_ISDIR idir.i_mode then some (-ENOTDIR, oid, iput w)
    else
      match jffs2_srv_lookup E w dir_id name ⟨0, 0⟩ with
      | none => none
      | some (r, _, w) =>
        if r = EOK then some (-EEXIST, oid, iput w)
        else if type = otFile then
          let mode := S_IFREG ||| S_IRWXU ||| S_IRWXG ||| S_IRWXO
          let oid := { oid with port := w.port }
          let c := E.create w.toFs idir name mode
          let w := (w.setFs c.2).log (Call.create idir.i_ino name mode)
          create_finish w oid c.1.1 c.1.2
        else if type = otDir then
          let oid := { oid with port := w.port }
          let c := E.mkdir w.toFs idir name mode
          let w := (w.setFs c.2).log (Call.mkdir idir.i_ino name mode)
          create_finish w oid (-EINVAL) c.1.2
        else
          create_finish w oid (-EINVAL) none

/-! ## Directory enumerator -/

/-- The function `jffs2_srv_readdir` (source lines 376-400); the cursor starts
as `{dir_print, offs, dent, -1}`, and `size` is not used by the source. -/
def jffs2_srv_readdir (E : Engine σ) (w : World σ) (dir_id : Nat) (offs : Nat) (_size : Nat) :
    Int × World σ :=
  if dir_id = 0 then (-EINVAL, w)
  else
    match jffs2_iget w dir_id with
    | (none, w) => (-EINVAL, w)
    | (some inode, w) =>
      if ((inode.i_mode >>> 14) &&& 1) = 0 then (-EINVAL, w)
      else
        let r := E.readdir w.toFs inode.f.inocache.pino_nlink inode ⟨offs, -1⟩
        let w := (w.setFs r.2).log (Call.readdir inode.i_ino offs)
        (r.1.emit, iput w)

/-! ## Sparse-write protocol -/

/-- The hole node `ri` that `jffs2_srv_prepare_write` builds (source lines
477-496), `version` being the incremented `f->highest_version`. -/
def hole_node (inode : Inode) (version : Nat) (now : Nat) (len : Nat) : jffs2_raw_inode :=
  { ino := cpu_to_je32 inode.f.inocache.ino
    version := cpu_to_je32 version
    mode := cpu_to_jemode inode.i_mode
    uid := cpu_to_je16 inode.i_uid
    gid := cpu_to_je16 inode.i_gid
    isize := cpu_to_je32 (max (inode.i_size % 2 ^ 32) len)
    atime := cpu_to_je32 now
    ctime := cpu_to_je32 now
    mtime := cpu_to_je32 now
    offset := cpu_to_je32 inode.i_size
    dsize := cpu_to_je32 (len - inode.i_size)
    csize := cpu_to_je32 0
    compr := JFFS2_COMPR_ZERO }

/-- The block `if (f->metadata) ...` of `jffs2_srv_prepare_write` (source lines
509-513). -/
def drop_metadata (E : Engine σ) (w : World σ) (inode : Inode) : Inode × World σ :=
  match inode.f.metadata with
  | some md =>
    let w := (w.setEng (E.mark_node_obsolete w.eng md.raw)).log (Call.mark_node_obsolete md.raw)
    let w := (w.setEng (E.free_full_dnode w.eng md)).log (Call.free_full_dnode md)
    ({ inode with f := { inode.f with metadata := none } }, w)
  | none => (inode, w)

/-- The error exit of `jffs2_srv_prepare_write` behind a failed linking (source
lines 518-521): the new node is marked obsolete and freed, the reservation
closed. -/
def prepare_write_undo (E : Engine σ) (w : World σ) (fn : jffs2_full_dnode) : World σ :=
  let w := (w.setEng (E.mark_node_obsolete w.eng fn.raw)).log (Call.mark_node_obsolete fn.raw)
  let w := (w.setEng (E.free_full_dnode w.eng fn)).log (Call.free_full_dnode fn)
  (w.setEng (E.complete_reservation w.eng)).log Call.complete_reservation

/-- The part of `jffs2_srv_prepare_write` behind a successful node commit
(source lines 507-527): the node `fn` is linked into the inode, a previous
metadata node is dropped, and the size is set when the linking succeeded. -/
def prepare_write_link (E : Engine σ) (w : World σ) (inode : Inode) (fn : jffs2_full_dnode)
    (len : Nat) : Int × Inode × World σ :=
  let a := E.add_full_dnode_to_inode w.eng inode.f fn
  let w := (w.setEng a.2).log (Call.add_full_dnode_to_inode fn)
  let m := drop_metadata E w inode
  if a.1 ≠ 0 then (a.1, m.1, prepare_write_undo E m.2 fn)
  else
    (0, { m.1 with i_size := len },
      (m.2.setEng (E.complete_reservation m.2.eng)).log Call.complete_reservation)

/-- The part of `jffs2_srv_prepare_write` behind a successful reservation
(source lines 476-527): the hole node is built and committed. -/
def prepare_write_commit (E : Engine σ) (w : World σ) (inode : Inode) (len : Nat) :
    Int × Inode × World σ :=
  let ri := hole_node inode (inode.f.highest_version + 1) (E.get_seconds w.eng) len
  let inode := { inode with f := { inode.f with highest_version := inode.f.highest_version + 1 } }
  let d := E.write_dnode w.eng inode.f ri
  let w := (w.setEng d.2).log (Call.write_dnode ri)
  match d.1 with
  | Except.error e =>
    (e, inode, (w.setEng (E.complete_reservation w.eng)).log Call.complete_reservation)
  | Except.ok fn => prepare_write_link E w inode fn len

/-- The function `jffs2_srv_prepare_write` (source lines 457-531): the return
value, the inode as the function leaves it, and the world.  The parameter
`offs` is not used by the source. -/
def jffs2_srv_prepare_write (E : Engine σ) (w : World σ) (inode : Inode) (_offs len : Nat) :
    Int × Inode × World σ :=
  if len > inode.i_size then
    let r := E.reserve_space w.eng
    let w := (w.setEng r.2).log Call.reserve_space
    if r.1 ≠ 0 then (r.1, inode, w)
    else prepare_write_commit E w inode len
  else (0, inode, w)

/-- The node `ri` that `jffs2_srv_write` hands to the range write (source lines
573-578). -/
def write_node (inode : Inode) (now : Nat) : jffs2_raw_inode :=
  { jffs2_raw_inode.zero with
    ino := cpu_to_je32 inode.i_ino
    mode := cpu_to_jemode inode.i_mode
    uid := cpu_to_je16 inode.i_uid
    gid := cpu_to_je16 inode.i_gid
    isize := cpu_to_je32 (inode.i_size % 2 ^ 32)
    atime := cpu_to_je32 now
    ctime := cpu_to_je32 now
    mtime := cpu_to_je32 now }

/-- The function `jffs2_srv_write` (source lines 533-594).  What the function
and `jffs2_srv_prepare_write` store through `inode` is written back to the inode
cache under `id`.  Ahead of its `IS_ERR` test the function loads `inode->i_sb`
(line 554): with an error pointer that load is undefined, which is `none`, so
that the exit `-EINVAL` behind the test is not reached.  The offset and the
length go to the range write as `uint32_t`. -/
def jffs2_srv_write (E : Engine σ) (w : World σ) (id : Nat) (offs : Nat) (data : List Nat)
    (len : Nat) : Option (Int × World σ) :=
  if id = 0 then some (-EINVAL, w)
  else if !E.alloc_raw_inode w.eng then some (-ENOMEM, w)
  else
    match jffs2_iget w id with
    | (none, _) => none
    | (some inode, w) =>
      if S_ISDIR inode.i_mode then some (-EISDIR, iput w)
      else
        let p := jffs2_srv_prepare_write E w inode offs len
        let inode := p.2.1
        let w := p.2.2
        if p.1 ≠ 0 then some (p.1, iput (w.store id inode))
        else
          let ri := write_node inode (E.get_seconds w.eng)
          let r := E.write_inode_range w.eng inode.f ri data (to_uint32 offs) (to_uint32 len)
          let ret := r.1.1
          let writelen := to_uint32 r.1.2
          let w := (w.setEng r.2).log
            (Call.write_inode_range ri (to_uint32 offs) (to_uint32 len))
          let inode :=
            if ret = 0 then
              if writelen > inode.i_size then
                { inode with i_size := writelen, i_blocks := (writelen + 511) >>> 9,
                             i_ctime := ri.ctime, i_mtime := ri.ctime }
              else inode
            else inode
          some (ret, iput (w.store id inode))

/-- The arm `mtWrite` of the dispatcher (source lines 646-648): the value stored
in `msg.o.io.err`, which `msgRespond` sends back. -/
def dispatch_mtWrite (E : Engine σ) (w : World σ) (oid : oid_t) (offs : Nat) (data : List Nat)
    (size : Nat) : Option (Int × World σ) :=
  jffs2_srv_write E w oid.id offs data size

/-! ## Walks of the path resolver -/

/-- The first `k` passes through the loop of `jffs2_srv_lookup`, each entered
with `name[len] != 0` and none of them leaving the loop or faulting: the loop
variables behind them. -/
def lookup_steps (E : Engine σ) (name : List Char) :
    Nat → LookupState σ → Option (LookupState σ)
  | 0, st => some st
  | k + 1, st =>
    if st.len < name.length then
      match lookup_body E name st with
      | Step.next st1 => lookup_steps E name k st1
      | Step.stop _ => none
      | Step.fault => none
    else none


/-! ## A concrete engine for the examples -/

/-- The private state of the example engine: the directory entries
`(directory, name, target)`. -/
structure Toy where
  dirents : List (Nat × List Char × Nat)

/-- The entry `name` of directory `dir`, if there is one. -/
def Toy.find (s : Toy) (dir : Nat) (name : List Char) : Option (Nat × List Char × Nat) :=
  s.dirents.find? (fun e => e.1 == dir && e.2.1 == name)

/-- A fresh inode of the example engine: number, parent and mode. -/
def Toy.mknod (pino : Nat) (ino : Nat) (mode : Nat) : Inode :=
  { i_ino := ino, i_mode := mode, i_uid := 0, i_gid := 0, i_size := 0, i_blocks := 0,
    i_ctime := 0, i_mtime := 0,
    f := { highest_version := 0, metadata := none, inocache := ⟨ino, pino⟩ } }

/-- Adding an entry and its inode, as the example engine does on create and
mkdir; like the create of jffs2 it does not look for an entry of that name,
which is left to its caller. -/
def Toy.add (fs : Fs Toy) (dir : Inode) (name : List Char) (mode : Nat) :
    (Int × Option Inode) × Fs Toy :=
  let ino := 100 + fs.eng.dirents.length
  let inode := Toy.mknod dir.i_ino ino mode
  ((0, some inode),
   { inodes := fun k => if k = ino then some inode else fs.inodes k
     eng := { fs.eng with dirents := (dir.i_ino, name, ino) :: fs.eng.dirents } })

/-- The example engines: directory entries in a list, a space reservation and
a linking of nodes that report `reserve_ret` and `add_ret`, other node
primitives that succeed, a range write that commits all it is given. -/
def toy_engine (reserve_ret add_ret : Int) : Engine Toy where
  lookup fs dir name :=
    match fs.eng.find dir.i_ino name with
    | some e => (fs.inodes e.2.2, fs)
    | none => (none, fs)
  unlink fs dir name _ :=
    (0, { fs with eng := { fs.eng with
      dirents := fs.eng.dirents.filter (fun e => !(e.1 == dir.i_ino && e.2.1 == name)) } })
  create fs dir name mode := Toy.add fs dir name mode
  mkdir fs dir name mode := Toy.add fs dir name (mode ||| S_IFDIR)
  readdir fs _ inode ctx :=
    (⟨ctx.pos + 1, ((fs.eng.dirents.filter (fun e => e.1 == inode.i_ino)).length : Int)⟩, fs)
  alloc_raw_inode _ := true
  get_seconds _ := 0
  reserve_space s := (reserve_ret, s)
  write_dnode s _ ri := (Except.ok ⟨ri.version, ri.offset, ri.dsize⟩, s)
  add_full_dnode_to_inode s _ _ := (add_ret, s)
  mark_node_obsolete s _ := s
  free_full_dnode s _ := s
  complete_reservation s := s
  read_inode_range s _ _ _ := (0, s)
  write_inode_range s _ _ _ _ len := ((0, len), s)

/-- The example engine all of whose primitives succeed. -/
def toy : Engine Toy := toy_engine 0 0

/-- The example engine whose linking of a node into the inode fails with
`-EIO`. -/
def toy_failing : Engine Toy := toy_engine 0 (-5)

/-- The regular file 5 of the example, of size 100. -/
def toy_file : Inode :=
  { Toy.mknod 1 5 (S_IFREG ||| 0o644) with i_size := 100 }

/-- The inodes of the example: the root directory 1, the regular file 2 of
size 0, the directory 3, the block device 4 and the regular file 5 of size
100. -/
def toy_inodes : Nat → Option Inode
  | 1 => some (Toy.mknod 1 1 (S_IFDIR ||| 0o755))
  | 2 => some (Toy.mknod 1 2 (S_IFREG ||| 0o644))
  | 3 => some (Toy.mknod 1 3 (S_IFDIR ||| 0o755))
  | 4 => some (Toy.mknod 1 4 (S_IFBLK ||| 0o600))
  | 5 => some toy_file
  | _ => none

/-- The example world: root holds `f` (2), `a` (3), `blk` (4) and `g` (5); the
server listens on port 7; nothing acquired, released or invoked yet. -/
def toy_world : World Toy :=
  { inodes := toy_inodes
    eng := { dirents := [(1, ['f'], 2), (1, ['a'], 3), (1, ['b', 'l', 'k'], 4), (1, ['g'], 5)] }
    port := 7, acquired := 0, released := 0, calls := [] }

/-- A regular file of 3000000000 bytes, inode 6 (a size that an extend phase
with that length leaves). -/
def toy_big_file : Inode :=
  { Toy.mknod 1 6 (S_IFREG ||| 0o644) with i_size := 3000000000 }

/-- The example world with the file of 3000000000 bytes in its inode cache. -/
def toy_world_big : World Toy := toy_world.store 6 toy_big_file

/-- Ten bytes of caller data. -/
def toy_data : List Nat := [1, 2, 3, 4, 5, 6, 7, 8, 9, 10]

/-- The hole ranges `(offset, dsize)` of the nodes handed to the node commit. -/
def hole_ranges (calls : List Call) : List (Nat × Nat) :=
  calls.filterMap (fun c =>
    match c with
    | Call.write_dnode ri => some (ri.offset, ri.dsize)
    | _ => none)

/-- Whether a call is the engine's unlink. -/
def Call.isUnlink : Call → Bool
  | Call.unlink _ _ _ => true
  | _ => false

/-- The loop variables of the example walk behind the component `a` of
`a/missing`. -/
def toy_after_a : LookupState Toy :=
  { w := { toy_world with acquired := 2, released := 1, calls := [Call.lookup 1 ['a']] }
    inode := Toy.mknod 1 3 (S_IFDIR ||| 0o755)
    len := 1
    res_id := 3 }

/-- The loop variables of an example walk at its start in the root directory. -/
def toy_at_root : LookupState Toy :=
  { w := { toy_world with acquired := 1 }
    inode := Toy.mknod 1 1 (S_IFDIR ||| 0o755)
    len := 0
    res_id := 0 }

/-! ## Strings -/

/-- Dropping as many elements as `takeWhile` takes is `dropWhile`. -/
theorem drop_takeWhile_length (p : Char → Bool) (l : List Char) :
    l.drop (l.takeWhile p).length = l.dropWhile p := by
  induction l with
  | nil => rfl
  | cons a t ih =>
    by_cases h : p a
    · simp [List.takeWhile, List.dropWhile, h, ih]
    · simp [List.takeWhile, List.dropWhile, h]

/-- The head of what `dropWhile` leaves fails the test. -/
theorem dropWhile_head_false (p : Char → Bool) (l : List Char) (c : Char) (r : List Char)
    (h : l.dropWhile p = c :: r) : p c = false := by
  induction l with
  | nil => simp at h
  | cons a t ih =>
    by_cases ha : p a
    · simp only [List.dropWhile, ha] at h
      exact ih h
    · simp only [List.dropWhile, ha] at h
      injection h with h1 h2
      subst h1
      simpa using ha

/-- Skipping slashes does not move the cursor back. -/
theorem skip_slashes_ge (name : List Char) (len : Nat) : len ≤ skip_slashes name len := by
  unfold skip_slashes
  omega

/-- The component behind the slashes, in terms of the rest of the name. -/
theorem component_skip (name : List Char) (len : Nat) :
    component name (skip_slashes name len) =
      ((name.drop len).dropWhile (fun c => c == '/')).takeWhile (fun c => c != '/') := by
  unfold component skip_slashes
  rw [← drop_takeWhile_length, List.drop_drop, Nat.add_comm]

/-- The component behind the slashes is empty only at the end of the name. -/
theorem component_nil (name : List Char) (len : Nat)
    (h : component name (skip_slashes name len) = []) : name.length ≤ skip_slashes name len := by
  have hd : name.drop (skip_slashes name len) = (name.drop len).dropWhile (fun c => c == '/') := by
    unfold skip_slashes
    rw [← drop_takeWhile_length, List.drop_drop, Nat.add_comm]
  rw [component_skip] at h
  cases hl : (name.drop len).dropWhile (fun c => c == '/') with
  | nil =>
    rw [hl] at hd
    exact List.drop_eq_nil_iff.mp hd
  | cons c r =>
    have hc := dropWhile_head_false _ _ c r hl
    rw [hl] at h
    simp only [List.takeWhile] at h
    have : (c != '/') = true := by
      simp only [bne, hc, Bool.not_false]
    simp [this] at h

/-! ## The loop of the path resolver -/

/-- A pass that stays in the loop moves the cursor on, or to the end of the
name. -/
theorem lookup_body_next_len (E : Engine σ) (name : List Char) (st st1 : LookupState σ)
    (h : lookup_body E name st = Step.next st1) :
    st.len + 1 ≤ st1.len ∨ name.length ≤ st1.len := by
  have hge := skip_slashes_ge name st.len
  unfold lookup_body at h
  simp only at h
  split_ifs at h with h1 h2
  · injection h with h
    subst h
    left
    simp only
    omega
  · split at h
    · injection h with h
      subst h
      left
      simp only
      omega
    · cases h
  · split at h
    · cases h
    · injection h with h
      subst h
      simp only
      by_cases hc : component name (skip_slashes name st.len) = []
      · right
        have := component_nil name st.len hc
        omega
      · left
        have : 0 < (component name (skip_slashes name st.len)).length :=
          List.length_pos.mpr hc
        omega

/-- A pass that leaves the loop at the `break` keeps `res->id`. -/
theorem lookup_body_stop (E : Engine σ) (name : List Char) (st st1 : LookupState σ)
    (h : lookup_body E name st = Step.stop st1) :
    st1.res_id = st.res_id ∧ st.len ≤ st1.len := by
  have hge := skip_slashes_ge name st.len
  unfold lookup_body at h
  simp only at h
  split_ifs at h with h1 h2
  · split at h <;> cases h
  · split at h
    · injection h with h
      subst h
      exact ⟨rfl, hge⟩
    · cases h

/-- A pass over a component that is neither `.` nor `..` and that the engine
does not find is the `break`: one engine lookup, the cursor behind the slashes,
`res->id` as it was. -/
theorem lookup_body_absent (E : Engine σ) (name : List Char) (st : LookupState σ)
    (hdot : component name (skip_slashes name st.len) ≠ ['.'])
    (hdotdot : component name (skip_slashes name st.len) ≠ ['.', '.'])
    (habsent : (E.lookup st.w.toFs st.inode (component name (skip_slashes name st.len))).1 = none) :
    lookup_body E name st =
      Step.stop { st with
        w := (st.w.setFs (E.lookup st.w.toFs st.inode
                (component name (skip_slashes name st.len))).2).log
              (Call.lookup st.inode.i_ino (component name (skip_slashes name st.len)))
        len := skip_slashes name st.len } := by
  unfold lookup_body
  simp only [hdot, hdotdot, if_false, habsent]

/-- After `k` passes the cursor is at `k` at least, or at the end of the name. -/
theorem lookup_steps_len (E : Engine σ) (name : List Char) (k : Nat) :
    ∀ st0 st : LookupState σ, lookup_steps E name k st0 = some st →
      st0.len + k ≤ st.len ∨ name.length ≤ st.len := by
  induction k with
  | zero =>
    intro st0 st h
    simp only [lookup_steps, Option.some.injEq] at h
    subst h
    left
    omega
  | succ k ih =>
    intro st0 st h
    simp only [lookup_steps] at h
    split_ifs at h with hlt
    split at h
    · rename_i st1 hb
      have hlen := lookup_body_next_len E name st0 st1 hb
      have hrec := ih st1 st h
      rcases hrec with hrec | hrec
      · rcases hlen with hlen | hlen
        · left
          omega
        · right
          omega
      · right
        exact hrec
    · cases h
    · cases h

/-- The loop behind `k` passes is the loop from the variables they leave. -/
theorem lookup_loop_steps (E : Engine σ) (name : List Char) (k : Nat) :
    ∀ (fuel : Nat) (st0 st : LookupState σ), lookup_steps E name k st0 = some st →
      lookup_loop E name (fuel + k) st0 = lookup_loop E name fuel st := by
  induction k with
  | zero =>
    intro fuel st0 st h
    simp only [lookup_steps, Option.some.injEq] at h
    subst h
    rfl
  | succ k ih =>
    intro fuel st0 st h
    simp only [lookup_steps] at h
    split_ifs at h with hlt
    split at h
    · rename_i st1 hb
      have hrec := ih fuel st1 st h
      rw [← hrec, ← Nat.add_assoc]
      simp only [lookup_loop, hlt, if_true, hb]
    · cases h
    · cases h

/-- The loop of `jffs2_srv_lookup` ends within `strlen(name) - len + 1` tests of
its condition. -/
theorem lookup_loop_fuel (E : Engine σ) (name : List Char) (fuel : Nat) :
    ∀ st : LookupState σ, 0 < fuel → name.length < fuel + st.len →
      lookup_loop E name fuel st ≠ Walk.out_of_fuel := by
  induction fuel with
  | zero =>
    intro st h0
    omega
  | succ fuel ih =>
    intro st _ h
    simp only [lookup_loop]
    split_ifs with hlt
    · split
      · rename_i st1 hb
        have hlen := lookup_body_next_len E name st st1 hb
        exact ih st1 (by omega) (by omega)
      · simp
      · simp
    · simp

/-- The walk of `jffs2_srv_lookup` from its start never lacks fuel, so that the
result `none` of the function is a use of an error pointer. -/
theorem jffs2_srv_lookup_fuel (E : Engine σ) (name : List Char) (w : World σ) (inode : Inode) :
    lookup_loop E name (name.length + 1) ⟨w, inode, 0, 0⟩ ≠ Walk.out_of_fuel :=
  lookup_loop_fuel E name (name.length + 1) _ (by omega) (by simp)

/-- When the loop ends with `res->id` set, the cursor has moved. -/
theorem lookup_loop_pos (E : Engine σ) (name : List Char) (fuel : Nat) :
    ∀ st st1 : LookupState σ, lookup_loop E name fuel st = Walk.done st1 →
      (st.res_id ≠ 0 → 0 < st.len) → st1.res_id ≠ 0 → 0 < st1.len := by
  induction fuel with
  | zero =>
    intro st st1 h
    simp [lookup_loop] at h
  | succ fuel ih =>
    intro st st1 h hinv
    simp only [lookup_loop] at h
    split_ifs at h with hlt
    · split at h
      · rename_i st2 hb
        have hlen := lookup_body_next_len E name st st2 hb
        exact ih st2 st1 h (fun _ => by omega)
      · rename_i st2 hb
        injection h with h
        subst h
        have hs := lookup_body_stop E name st st2 hb
        intro hne
        rw [hs.1] at hne
        have := hinv hne
        omega
      · cases h
    · injection h with h
      subst h
      exact hinv

/-- The return value of `jffs2_srv_lookup` is never `EOK`: it is a negated
errno or the positive number of characters consumed. -/
theorem jffs2_srv_lookup_ne_EOK (E : Engine σ) (w : World σ) (dir_id : Nat) (name : List Char)
    (res : oid_t) (r : Int × oid_t × World σ)
    (h : jffs2_srv_lookup E w dir_id name res = some r) : r.1 ≠ EOK := by
  unfold jffs2_srv_lookup at h
  simp only at h
  split at h
  · injection h with h
    subst h
    simp [EOK, EINVAL]
  · split_ifs at h with hd
    · injection h with h
      subst h
      simp [EOK, ENOTDIR]
    · split at h
      · rename_i st hl
        have hpos := lookup_loop_pos E name _ _ st hl (fun hne => absurd rfl hne)
        split_ifs at h with h0
        · injection h with h
          subst h
          simp [EOK, ENOENT]
        · injection h with h
          subst h
          have := hpos h0
          simp only [EOK]
          omega
      · cases h
      · cases h

/-! ## Path resolution: an absent component -/

/-- Claim C9, as amended: when the start id denotes a directory and the walk of
`jffs2_srv_lookup`, after `k` passes that stayed in the loop, comes to a component
(neither `.` nor `..`) that the engine's directory-entry lookup does not find,
the function stops there: it makes that one engine lookup and no further one,
releases the current directory, and reports the result id accumulated so far,
with `-ENOENT` when that id is 0 and the cursor behind the slashes (the length
consumed) otherwise.  When the absent component is the first one (`k = 0`) the
accumulated id is 0. -/
theorem jffs2_srv_lookup_absent_component (E : Engine σ) (w : World σ) (dir_id : Nat)
    (name : List Char) (res : oid_t) (dir : Inode) (k : Nat) (st : LookupState σ)
    (hdir : w.inodes (if dir_id = 0 then 1 else dir_id) = some dir)
    (hisdir : S_ISDIR dir.i_mode = true)
    (hwalk : lookup_steps E name k
      ⟨(jffs2_iget w (if dir_id = 0 then 1 else dir_id)).2, dir, 0, 0⟩ = some st)
    (hmore : st.len < name.length)
    (hdot : component name (skip_slashes name st.len) ≠ ['.'])
    (hdotdot : component name (skip_slashes name st.len) ≠ ['.', '.'])
    (habsent : (E.lookup st.w.toFs st.inode (component name (skip_slashes name st.len))).1 = none) :
    jffs2_srv_lookup E w dir_id name res =
      some (if st.res_id = 0 then -ENOENT else ((skip_slashes name st.len : Nat) : Int),
            ⟨w.port, st.res_id⟩,
            iput ((st.w.setFs (E.lookup st.w.toFs st.inode
                    (component name (skip_slashes name st.len))).2).log
                  (Call.lookup st.inode.i_ino (component name (skip_slashes name st.len)))))
    ∧ (k = 0 → st.res_id = 0) := by
  constructor
  · have hk : k ≤ name.length := by
      have := lookup_steps_len E name k _ st hwalk
      simp only at this
      omega
    obtain ⟨m, hm⟩ : ∃ m, name.length + 1 = (m + 1) + k := ⟨name.length - k, by omega⟩
    have hloop := lookup_loop_steps E name k (m + 1) _ st hwalk
    rw [← hm] at hloop
    have hig : jffs2_iget w (if dir_id = 0 then 1 else dir_id) =
        (some dir, { w with acquired := w.acquired + 1 }) := by
      simp only [jffs2_iget, hdir]
    rw [hig] at hloop
    unfold jffs2_srv_lookup
    simp only [hig, hisdir, Bool.not_true, Bool.false_eq_true, if_false]
    rw [hloop]
    simp only [lookup_loop, hmore, if_true, lookup_body_absent E name st hdot hdotdot habsent]
    split_ifs with h0
    · simp [h0]
    · rfl
  · intro hk
    subst hk
    simp only [lookup_steps, Option.some.injEq] at hwalk
    subst hwalk
    rfl

/-- Witness of the amended C9 in the example world: `lookup(1, "a/missing")`,
where `a` resolves to inode 3 and `missing` is absent under it, returns the
consumed length 2 with result id 3 behind two engine lookups, and
`lookup(1, "missing")` returns `-ENOENT` with result id 0 behind one. -/
theorem jffs2_srv_lookup_absent_component_witness :
    jffs2_srv_lookup toy toy_world 1 ['a', '/', 'm', 'i', 's', 's', 'i', 'n', 'g'] ⟨0, 0⟩ =
      some (2, ⟨7, 3⟩,
        { toy_world with
            acquired := 2
            released := 2
            calls := [Call.lookup 1 ['a'], Call.lookup 3 ['m', 'i', 's', 's', 'i', 'n', 'g']] })
    ∧ jffs2_srv_lookup toy toy_world 1 ['m', 'i', 's', 's', 'i', 'n', 'g'] ⟨0, 0⟩ =
      some (-ENOENT, ⟨7, 0⟩,
        { toy_world with
            acquired := 1
            released := 1
            calls := [Call.lookup 1 ['m', 'i', 's', 's', 'i', 'n', 'g']] }) :=
  ⟨(jffs2_srv_lookup_absent_component toy toy_world 1
      ['a', '/', 'm', 'i', 's', 's', 'i', 'n', 'g'] ⟨0, 0⟩ (Toy.mknod 1 1 (S_IFDIR ||| 0o755)) 1
      toy_after_a rfl rfl rfl (by decide) (by decide) (by decide) rfl).1,
   (jffs2_srv_lookup_absent_component toy toy_world 1
      ['m', 'i', 's', 's', 'i', 'n', 'g'] ⟨0, 0⟩ (Toy.mknod 1 1 (S_IFDIR ||| 0o755)) 0
      toy_at_root rfl rfl rfl (by decide) (by decide) (by decide) rfl).1⟩

/-- Counterexample to C9 as stated: in the example world the engine does not
find `missing` under the directory `a` (inode 3), yet `lookup(1, "a/missing")`
returns 2 with result id 3, not `-ENOENT` with result id 0. -/
theorem jffs2_srv_lookup_later_component_counterexample :
    (toy.lookup toy_world.toFs (Toy.mknod 1 3 (S_IFDIR ||| 0o755))
        ['m', 'i', 's', 's', 'i', 'n', 'g']).1 = none
    ∧ (jffs2_srv_lookup toy toy_world 1 ['a', '/', 'm', 'i', 's', 's', 'i', 'n', 'g'] ⟨0, 0⟩).map
        (fun r => (r.1, r.2.1.id)) = some (2, 3)
    ∧ (jffs2_srv_lookup toy toy_world 1 ['a', '/', 'm', 'i', 's', 's', 'i', 'n', 'g'] ⟨0, 0⟩).map
        (fun r => (r.1, r.2.1.id)) ≠ some (-ENOENT, 0) := by
  decide

/-! ## Read -/

/-- The conversion to `int` keeps the values from 0 up to `2 ^ 31 - 1`. -/
theorem to_int_of_lt (n : Nat) (h : n < 2 ^ 31) : to_int (n : Int) = (n : Int) := by
  unfold to_int
  omega

/-- What `jffs2_srv_read` returns for a non-directory inode when the engine's
range read succeeds: the clamped count, converted to `int`. -/
theorem jffs2_srv_read_value (E : Engine σ) (w : World σ) (id offs len : Nat) (inode : Inode)
    (hid : id ≠ 0) (hres : w.inodes id = some inode) (hnd : S_ISDIR inode.i_mode = false)
    (hok : inode.i_size ≥ offs →
      (E.read_inode_range w.eng inode.f (to_uint32 offs) (to_uint32 len)).1 = 0) :
    (jffs2_srv_read E w id offs len).map (fun r => r.1)
      = some (to_int ((min len (inode.i_size - offs) : Nat) : Int)) := by
  unfold jffs2_srv_read jffs2_iget
  simp only [hid, hres, hnd, if_false]
  by_cases hlt : inode.i_size < offs
  · have h0 : inode.i_size - offs = 0 := by omega
    simp [hlt, h0, to_int]
  · have hr := hok (by omega)
    simp only [hlt, if_false]
    simp only [World.setEng, hr, if_true]
    by_cases hc : len > inode.i_size - offs
    · simp only [hc, if_true]
      rw [Nat.min_eq_right (by omega)]
      simp
    · simp only [hc, if_false]
      rw [Nat.min_eq_left (by omega)]
      simp

/-- Claim C3, as amended: for a non-zero id that resolves to a non-directory
inode, with the engine's range read reporting success when it is invoked,
`jffs2_srv_read` returns `min(len, size - offs)` clamped at 0 whenever that
count is in the range of the `int` it is returned through (below `2 ^ 31`); it
returns 0 and no error when `offs >= size`, and `size - offs` when
`offs < size < offs + len` and `size - offs` is below `2 ^ 31`. -/
theorem jffs2_srv_read_clamped (E : Engine σ) (w : World σ) (id offs len : Nat) (inode : Inode)
    (hid : id ≠ 0) (hres : w.inodes id = some inode) (hnd : S_ISDIR inode.i_mode = false)
    (hok : inode.i_size ≥ offs →
      (E.read_inode_range w.eng inode.f (to_uint32 offs) (to_uint32 len)).1 = 0) :
    (min len (inode.i_size - offs) < 2 ^ 31 →
      (jffs2_srv_read E w id offs len).map (fun r => r.1)
        = some (max 0 (min (len : Int) ((inode.i_size : Int) - (offs : Int)))))
    ∧ (inode.i_size ≤ offs → (jffs2_srv_read E w id offs len).map (fun r => r.1) = some 0)
    ∧ (offs < inode.i_size → inode.i_size < offs + len → inode.i_size - offs < 2 ^ 31 →
        (jffs2_srv_read E w id offs len).map (fun r => r.1)
          = some ((inode.i_size : Int) - (offs : Int))) := by
  have key := jffs2_srv_read_value E w id offs len inode hid hres hnd hok
  refine ⟨?_, ?_, ?_⟩
  · intro hr
    rw [key, to_int_of_lt _ hr]
    congr 1
    omega
  · intro h
    have h0 : min len (inode.i_size - offs) = 0 := by omega
    rw [key, h0]
    rfl
  · intro h1 h2 h3
    have h0 : min len (inode.i_size - offs) = inode.i_size - offs := by omega
    rw [key, h0, to_int_of_lt _ h3]
    congr 1
    omega

/-- Witness of the amended C3 on the file of size 100 of the example world: 50
bytes asked at offset 90 give 10, at offset 100 and at offset 150 give 0, and 5
bytes asked at offset 90 give 5. -/
theorem jffs2_srv_read_clamped_witness :
    (jffs2_srv_read toy toy_world 5 90 50).map (fun r => r.1) = some 10
    ∧ (jffs2_srv_read toy toy_world 5 100 50).map (fun r => r.1) = some 0
    ∧ (jffs2_srv_read toy toy_world 5 150 50).map (fun r => r.1) = some 0
    ∧ (jffs2_srv_read toy toy_world 5 90 5).map (fun r => r.1) = some 5 :=
  ⟨(jffs2_srv_read_clamped toy toy_world 5 90 50 toy_file (by decide) rfl (by decide)
      (fun _ => rfl)).2.2 (by decide) (by decide) (by decide),
   (jffs2_srv_read_clamped toy toy_world 5 100 50 toy_file (by decide) rfl (by decide)
      (fun _ => rfl)).2.1 (by decide),
   (jffs2_srv_read_clamped toy toy_world 5 150 50 toy_file (by decide) rfl (by decide)
      (fun _ => rfl)).2.1 (by decide),
   (jffs2_srv_read_clamped toy toy_world 5 90 5 toy_file (by decide) rfl (by decide)
      (fun _ => rfl)).1 (by decide)⟩

/-- Counterexample to C3 as stated: inode 6 resolves to a regular file of
3000000000 bytes and the engine's range read succeeds, yet a read of 3000000000
bytes at offset 0 returns -1294967296 through `int ret`, not the clamped count
`min(len, size - offs) = 3000000000`. -/
theorem jffs2_srv_read_int_counterexample :
    toy_world_big.inodes 6 = some toy_big_file
    ∧ S_ISDIR toy_big_file.i_mode = false
    ∧ (toy.read_inode_range toy_world_big.eng toy_big_file.f (to_uint32 0)
        (to_uint32 3000000000)).1 = 0
    ∧ (jffs2_srv_read toy toy_world_big 6 0 3000000000).map (fun r => r.1)
        = some (-1294967296)
    ∧ (jffs2_srv_read toy toy_world_big 6 0 3000000000).map (fun r => r.1)
        ≠ some (max 0 (min (3000000000 : Int) ((3000000000 : Int) - 0))) := by
  decide

/-- Claim C4, at a failing input: `jffs2_srv_read` of the empty regular file 2
at offset 1 acquires one handle and returns 0 through the `i_size < offs` exit
without releasing it; likewise `jffs2_srv_readdir` of that file leaves through
its type test with the handle acquired, and `jffs2_srv_lookup` of `a/..`
acquires three handles and releases two. -/
theorem jffs2_srv_read_leak :
    (jffs2_srv_read toy toy_world 2 1 1).map (fun r => r.1) = some 0
    ∧ (jffs2_srv_read toy toy_world 2 1 1).map (fun r => r.2.acquired) = some 1
    ∧ (jffs2_srv_read toy toy_world 2 1 1).map (fun r => r.2.released) = some 0
    ∧ (jffs2_srv_readdir toy toy_world 2 0 512).2.acquired = 1
    ∧ (jffs2_srv_readdir toy toy_world 2 0 512).2.released = 0
    ∧ (jffs2_srv_lookup toy toy_world 1 ['a', '/', '.', '.'] ⟨0, 0⟩).map
        (fun r => (r.1, r.2.2.acquired, r.2.2.released)) = some (4, 3, 2) := by
  decide

/-! ## Sparse-write protocol: the extend phase -/

/-- Dropping the previous metadata node leaves the size alone. -/
theorem drop_metadata_i_size (E : Engine σ) (w : World σ) (inode : Inode) :
    (drop_metadata E w inode).1.i_size = inode.i_size := by
  unfold drop_metadata
  split <;> rfl

/-- A failed linking leaves the size alone. -/
theorem prepare_write_link_rollback (E : Engine σ) (w : World σ) (inode : Inode)
    (fn : jffs2_full_dnode) (len : Nat) (herr : (prepare_write_link E w inode fn len).1 ≠ 0) :
    (prepare_write_link E w inode fn len).2.1.i_size = inode.i_size := by
  unfold prepare_write_link at herr ⊢
  simp only at herr ⊢
  split_ifs at herr ⊢ with h
  · exact drop_metadata_i_size E _ inode
  · exact absurd rfl herr

/-- A failed node commit or linking leaves the size alone. -/
theorem prepare_write_commit_rollback (E : Engine σ) (w : World σ) (inode : Inode)
    (len : Nat) (herr : (prepare_write_commit E w inode len).1 ≠ 0) :
    (prepare_write_commit E w inode len).2.1.i_size = inode.i_size := by
  unfold prepare_write_commit at herr ⊢
  simp only at herr ⊢
  split at herr
  · rfl
  · exact prepare_write_link_rollback E _ _ _ len herr

/-- Claim C5: for every inode, offset, length and engine, when
`jffs2_srv_prepare_write` returns a non-zero value (from the space reservation,
the node commit or the linking of the node), the `i_size` of the inode is what it
was before the call. -/
theorem jffs2_srv_prepare_write_rollback (E : Engine σ) (w : World σ) (inode : Inode)
    (offs len : Nat) (herr : (jffs2_srv_prepare_write E w inode offs len).1 ≠ 0) :
    (jffs2_srv_prepare_write E w inode offs len).2.1.i_size = inode.i_size := by
  unfold jffs2_srv_prepare_write at herr ⊢
  simp only at herr ⊢
  split_ifs at herr ⊢ with h1 h2
  · rfl
  · exact prepare_write_commit_rollback E _ inode len herr
  · rfl

/-- Witness of C5: with an engine whose linking fails with `-EIO`, the extend
phase for 10 bytes on the empty file returns -5 and leaves the size 0. -/
theorem jffs2_srv_prepare_write_rollback_witness :
    (jffs2_srv_prepare_write toy_failing toy_world (Toy.mknod 1 2 (S_IFREG ||| 0o644)) 1000 10).1
        = -5
    ∧ (jffs2_srv_prepare_write toy_failing toy_world
        (Toy.mknod 1 2 (S_IFREG ||| 0o644)) 1000 10).2.1.i_size = 0 :=
  ⟨by decide,
   jffs2_srv_prepare_write_rollback toy_failing toy_world (Toy.mknod 1 2 (S_IFREG ||| 0o644))
     1000 10 (by decide)⟩

/-- With a linking that succeeds, the linking part returns 0 and sets the size
to `len`. -/
theorem prepare_write_link_ok (E : Engine σ) (w : World σ) (inode : Inode)
    (fn : jffs2_full_dnode) (len : Nat)
    (hadd : ∀ s f n, (E.add_full_dnode_to_inode s f n).1 = 0) :
    (prepare_write_link E w inode fn len).1 = 0
    ∧ (prepare_write_link E w inode fn len).2.1.i_size = len := by
  unfold prepare_write_link
  simp only [hadd, ne_eq, not_true_eq_false, if_false, and_self]

/-- With a node commit and a linking that succeed, the commit part returns 0
and sets the size to `len`. -/
theorem prepare_write_commit_ok (E : Engine σ) (w : World σ) (inode : Inode) (len : Nat)
    (hdnode : ∀ s f ri, ∃ fn, (E.write_dnode s f ri).1 = Except.ok fn)
    (hadd : ∀ s f n, (E.add_full_dnode_to_inode s f n).1 = 0) :
    (prepare_write_commit E w inode len).1 = 0
    ∧ (prepare_write_commit E w inode len).2.1.i_size = len := by
  unfold prepare_write_commit
  simp only
  obtain ⟨fn, hfn⟩ := hdnode w.eng
    { inode.f with highest_version := inode.f.highest_version + 1 }
    (hole_node inode (inode.f.highest_version + 1) (E.get_seconds w.eng) len)
  rw [hfn]
  exact prepare_write_link_ok E _ _ fn len hadd

/-- With an engine that succeeds, the extend phase returns 0 and leaves the
size `max s len`: the offset plays no part. -/
theorem jffs2_srv_prepare_write_ok (E : Engine σ) (w : World σ) (inode : Inode) (offs len : Nat)
    (hres : ∀ s, (E.reserve_space s).1 = 0)
    (hdnode : ∀ s f ri, ∃ fn, (E.write_dnode s f ri).1 = Except.ok fn)
    (hadd : ∀ s f n, (E.add_full_dnode_to_inode s f n).1 = 0) :
    (jffs2_srv_prepare_write E w inode offs len).1 = 0
    ∧ (jffs2_srv_prepare_write E w inode offs len).2.1.i_size = max inode.i_size len := by
  unfold jffs2_srv_prepare_write
  simp only [hres, ne_eq, not_true_eq_false, if_false]
  split_ifs with h
  · have := prepare_write_commit_ok E ((w.setEng (E.reserve_space w.eng).2).log Call.reserve_space)
      inode len hdnode hadd
    refine ⟨this.1, ?_⟩
    rw [this.2, Nat.max_eq_right (by omega)]
  · refine ⟨rfl, ?_⟩
    simp only
    rw [Nat.max_eq_left (by omega)]

/-! ## Sparse-write protocol: the write phase -/

/-- What `jffs2_srv_write` does when every engine step succeeds and the range
write reports all of its length committed: it returns 0, and the size it leaves
is `max s len`, whatever the offset. -/
theorem jffs2_srv_write_size (E : Engine σ) (w : World σ) (id offs len : Nat) (data : List Nat)
    (inode : Inode)
    (hid : id ≠ 0) (hget : w.inodes id = some inode) (hnd : S_ISDIR inode.i_mode = false)
    (halloc : ∀ s, E.alloc_raw_inode s = true)
    (hres : ∀ s, (E.reserve_space s).1 = 0)
    (hdnode : ∀ s f ri, ∃ fn, (E.write_dnode s f ri).1 = Except.ok fn)
    (hadd : ∀ s f n, (E.add_full_dnode_to_inode s f n).1 = 0)
    (hwrite : ∀ s f ri, (E.write_inode_range s f ri data (to_uint32 offs) (to_uint32 len)).1
      = (0, to_uint32 len)) :
    (jffs2_srv_write E w id offs data len).map (fun r => r.1) = some 0
    ∧ (jffs2_srv_write E w id offs data len).map
        (fun r => (r.2.inodes id).map (fun i => i.i_size))
        = some (some (max inode.i_size len)) := by
  have hp := jffs2_srv_prepare_write_ok E { w with acquired := w.acquired + 1 } inode offs len
    hres hdnode hadd
  unfold jffs2_srv_write jffs2_iget
  simp only [hid, halloc, hget, hnd, if_false, Bool.not_true, Bool.false_eq_true, hp.1, ne_eq,
    not_true_eq_false, hwrite, if_true]
  have hle : ¬ (to_uint32 (to_uint32 len) > max inode.i_size len) := by
    unfold to_uint32
    have := Nat.mod_le (len % 2 ^ 32) (2 ^ 32)
    have := Nat.mod_le len (2 ^ 32)
    omega
  simp only [hp.2, hle, if_false, iput, World.store, if_true, Option.map_some', and_self]

/-- The all-success hypotheses of `jffs2_srv_write_size` hold of the example
engine: for the write of 10 bytes at offset 1000 to the empty file 2 the size
left is `max 0 10`. -/
theorem jffs2_srv_write_size_example :
    (jffs2_srv_write toy toy_world 2 1000 toy_data 10).map (fun r => r.1) = some 0
    ∧ (jffs2_srv_write toy toy_world 2 1000 toy_data 10).map
        (fun r => (r.2.inodes 2).map (fun i => i.i_size))
        = some (some (max 0 10)) :=
  jffs2_srv_write_size toy toy_world 2 1000 10 toy_data (Toy.mknod 1 2 (S_IFREG ||| 0o644))
    (by decide) rfl (by decide) (fun _ => rfl) (fun _ => rfl) (fun _ _ _ => ⟨_, rfl⟩)
    (fun _ _ _ => rfl) (fun _ _ _ => rfl)

/-- Claim C1, at its own example: in the example world, whose engine succeeds
at every step and commits all 10 bytes, `jffs2_srv_write` of 10 bytes at offset
1000 to the empty regular file 2 returns 0 and leaves `i_size = 10`, not 1010,
and the hole node of the extend phase spans offset 0 and 10 bytes, not
`[0, 1010)`. -/
theorem jffs2_srv_write_sparse_size :
    (jffs2_srv_write toy toy_world 2 1000 toy_data 10).map (fun r => r.1) = some 0
    ∧ (jffs2_srv_write toy toy_world 2 1000 toy_data 10).map
        (fun r => (r.2.inodes 2).map (fun i => i.i_size)) = some (some 10)
    ∧ (jffs2_srv_write toy toy_world 2 1000 toy_data 10).map
        (fun r => hole_ranges r.2.calls) = some [(0, 10)] := by
  decide

/-- Claim C2, at a failing input: the engine's range write of the 10 bytes at
offset 0 of file 5 succeeds and reports 10 bytes committed, and the value the
dispatcher stores as the write response is 0, the engine's result, not 10. -/
theorem dispatch_mtWrite_success_value :
    (toy.write_inode_range toy_world.eng toy_file.f (write_node toy_file 0) toy_data 0 10).1
        = (0, 10)
    ∧ (dispatch_mtWrite toy toy_world ⟨7, 5⟩ 0 toy_data 10).map (fun r => r.1) = some 0
    ∧ (dispatch_mtWrite toy toy_world ⟨7, 5⟩ 0 toy_data 10).map (fun r => r.2.calls)
        = some [Call.write_inode_range (write_node toy_file 0) 0 10] := by
  decide

/-! ## Directory-entry mutator -/

/-- Whatever the directory and the name, `jffs2_srv_unlink` returns `-EINVAL` or
`-ENOENT`: the value of the path resolver is never `EOK`, so the engine's
unlink is not reached. -/
theorem jffs2_srv_unlink_ret (E : Engine σ) (w : World σ) (dir_id : Nat) (name : List Char)
    (r : Int × World σ) (h : jffs2_srv_unlink E w dir_id name = some r) :
    r.1 = -EINVAL ∨ r.1 = -ENOENT := by
  unfold jffs2_srv_unlink at h
  split_ifs at h with h1 h2
  · injection h with h
    subst h
    exact Or.inl rfl
  · injection h with h
    subst h
    exact Or.inl rfl
  · split at h
    · injection h with h
      subst h
      exact Or.inr rfl
    · split at h
      · cases h
      · rename_i r1 oid w1 hl
        have hne := jffs2_srv_lookup_ne_EOK E _ dir_id name _ _ hl
        simp only [hne, ne_eq, not_false_eq_true, if_true] at h
        injection h with h
        subst h
        exact Or.inr rfl

/-- Claim C6, at a failing input: in the example world the name `f` resolves
under the root directory (the path resolver returns the consumed length 1 and
id 2), and `jffs2_srv_unlink(1, "f")` returns `-ENOENT` without an invocation of
the engine's unlink. -/
theorem jffs2_srv_unlink_existing :
    (jffs2_srv_lookup toy toy_world 1 ['f'] ⟨0, 0⟩).map (fun r => (r.1, r.2.1.id)) = some (1, 2)
    ∧ (jffs2_srv_unlink toy toy_world 1 ['f']).map (fun r => r.1) = some (-ENOENT)
    ∧ (jffs2_srv_unlink toy toy_world 1 ['f']).map (fun r => r.2.calls.any Call.isUnlink)
        = some false := by
  decide

/-- For the type `otDir` the function `jffs2_srv_create` never returns 0 and
never sets the output id: behind the engine's mkdir, control runs into
`default`. -/
theorem jffs2_srv_create_otDir_ret (E : Engine σ) (w : World σ) (dir_id : Nat) (name : List Char)
    (oid : oid_t) (mode port : Nat) (r : Int × oid_t × World σ)
    (h : jffs2_srv_create E w dir_id name oid otDir mode port = some r) :
    r.1 ≠ 0 ∧ r.2.1.id = oid.id := by
  unfold jffs2_srv_create at h
  split at h
  · injection h with h
    subst h
    simp [ENOENT]
  · rename_i idir w0 hg
    by_cases hd : (!S_ISDIR idir.i_mode) = true
    · rw [if_pos hd] at h
      injection h with h
      subst h
      simp [ENOTDIR]
    · rw [if_neg hd] at h
      split at h
      · cases h
      · rename_i r1 oid1 w1 hl
        have hne : r1 ≠ EOK := jffs2_srv_lookup_ne_EOK E _ dir_id name _ _ hl
        have hty : ¬ (otDir = otFile) := by decide
        have h22 : ¬ (-EINVAL = 0) := by decide
        rw [if_neg hne, if_neg hty, if_pos rfl] at h
        simp only [create_finish, h22, if_false] at h
        injection h with h
        subst h
        simp [EINVAL]

/-- Claim C7, at its own example: in the example world `d` is not present under
the root directory and the engine's mkdir succeeds; `create(1, "d", otDir, 0700,
9)` invokes mkdir with mode 0700 and sets the output port to the server's port
7, but returns `-EINVAL` and leaves the output id 0. -/
theorem jffs2_srv_create_directory :
    (jffs2_srv_create toy toy_world 1 ['d'] ⟨0, 0⟩ otDir 0o700 9).map
        (fun r => (r.1, r.2.1, r.2.2.calls)) =
      some (-EINVAL, ⟨7, 0⟩, [Call.lookup 1 ['d'], Call.mkdir 1 ['d'] 0o700])
    ∧ (toy.mkdir toy_world.toFs (Toy.mknod 1 1 (S_IFDIR ||| 0o755)) ['d'] 0o700).1.1 = 0 := by
  decide

/-- Claim C8, at a failing input: in the example world `f` exists under the
root directory (the preceding lookup finds it and returns 1), and
`create(1, "f", otFile, 0, 9)` invokes the engine's create and returns its
result 0, not `-EEXIST`. -/
theorem jffs2_srv_create_existing :
    (jffs2_srv_lookup toy toy_world 1 ['f'] ⟨0, 0⟩).map (fun r => (r.1, r.2.1.id)) = some (1, 2)
    ∧ (jffs2_srv_create toy toy_world 1 ['f'] ⟨0, 0⟩ otFile 0 9).map
        (fun r => (r.1, r.2.2.calls)) =
      some (0, [Call.lookup 1 ['f'], Call.create 1 ['f'] 0o100777]) := by
  decide

/-! ## Directory enumerator -/

/-- The directory scan is invoked by `jffs2_srv_readdir` exactly for the
resolvable non-zero ids whose mode has bit 14 set. -/
theorem jffs2_srv_readdir_scans (E : Engine σ) (w : World σ) (id offs size : Nat) (inode : Inode)
    (hid : id ≠ 0) (hget : w.inodes id = some inode) :
    (jffs2_srv_readdir E w id offs size).2.calls =
      if ((inode.i_mode >>> 14) &&& 1) = 0 then w.calls
      else w.calls ++ [Call.readdir inode.i_ino offs] := by
  unfold jffs2_srv_readdir jffs2_iget
  simp only [hid, hget, if_false]
  split_ifs with h
  · rfl
  · rfl

/-- Claim C10, at a failing input: inode 4 of the example world is a block
device (`S_ISDIR` is false for its mode), and `jffs2_srv_readdir` of it invokes
the engine's directory scan and returns the cursor's count, not `-EINVAL`. -/
theorem jffs2_srv_readdir_block_device :
    S_ISDIR (S_IFBLK ||| 0o600) = false
    ∧ toy_world.inodes 4 = some (Toy.mknod 1 4 (S_IFBLK ||| 0o600))
    ∧ (jffs2_srv_readdir toy toy_world 4 0 512).1 = 0
    ∧ (jffs2_srv_readdir toy toy_world 4 0 512).2.calls = [Call.readdir 4 0] := by
  decide

end Jffs2
